import Mathlib

/-!
Verification of the arbitrage execution saga of CEXMasterP (src/backend/server.py)
against its natural-language specification.

The Python source is shallowly embedded: every numeric value is a rational
(the spec arithmetic is exact); fallible calls are passed in as Option-valued
poll traces or fetch records; the sleep-based polling loops are driven by a
fuel parameter counting the number of polls that fit before the hard timeout.
-/

namespace CEXMasterP

/-- Equality of Except values is decidable componentwise (used to evaluate
the modelled results on concrete inputs). -/
instance {ε α : Type} [DecidableEq ε] [DecidableEq α] : DecidableEq (Except ε α) :=
  fun a b =>
    match a, b with
    | .ok x, .ok y => if h : x = y then .isTrue (by rw [h]) else .isFalse (by simp [h])
    | .error x, .error y => if h : x = y then .isTrue (by rw [h]) else .isFalse (by simp [h])
    | .ok _, .error _ => .isFalse (by simp)
    | .error _, .ok _ => .isFalse (by simp)

/-- Python str.lower() (String.toLower), written over the character list so
that the kernel can evaluate it on literals. -/
def lowerString (s : String) : String := ⟨s.data.map Char.toLower⟩

/-! ## Retry/backoff combinator — retry_with_backoff (server.py lines 1103-1119)

The wrapped coroutine func is modelled as a map from the attempt index to the
outcome of that attempt: a returned value, a ccxt.RateLimitExceeded error, or
any other exception.  The modelled result also records the sequence of sleep
delays the loop performed, in order. -/

/-- Outcome of one invocation of the wrapped operation. -/
inductive Attempt (α : Type) where
  | ok (v : α)
  | rateLimit (msg : String)
  | err (msg : String)
deriving DecidableEq, Repr

/-- True when the attempt raised (either error class). -/
def Attempt.isFailure {α : Type} : Attempt α → Bool
  | .ok _ => false
  | .rateLimit _ => true
  | .err _ => true

/-- The message of a raised attempt (empty for a success). -/
def Attempt.errMsg {α : Type} : Attempt α → String
  | .ok _ => ""
  | .rateLimit m => m
  | .err m => m

/-- Result of retry_with_backoff: a returned value, the re-raised last error,
or the Python implicit None when the for-loop body never runs
(range(max_retries) empty). -/
inductive RetryOutcome (α : Type) where
  | value (v : α)
  | raised (msg : String)
  | fellThroughNone
deriving DecidableEq, Repr

/-- The for-loop of retry_with_backoff.  remaining is the number of loop
iterations still available (initially max_retries) and attempt is the current
loop index, so remaining + attempt = max_retries throughout.  Each failed
non-final attempt appends one sleep delay: initial_delay * 2 ^ attempt after a
RateLimitExceeded, the fixed initial_delay after any other exception; the final
attempt (attempt = max_retries - 1) re-raises instead. -/
def retryLoop {α : Type} (op : Nat → Attempt α) (max_retries : Nat)
    (initial_delay : ℚ) : Nat → Nat → RetryOutcome α × List ℚ
  | 0, _ => (.fellThroughNone, [])
  | remaining + 1, attempt =>
    match op attempt with
    | .ok v => (.value v, [])
    | .rateLimit m =>
      if attempt = max_retries - 1 then (.raised m, [])
      else
        let rest := retryLoop op max_retries initial_delay remaining (attempt + 1)
        (rest.1, initial_delay * 2 ^ attempt :: rest.2)
    | .err m =>
      if attempt = max_retries - 1 then (.raised m, [])
      else
        let rest := retryLoop op max_retries initial_delay remaining (attempt + 1)
        (rest.1, initial_delay :: rest.2)

/-- retry_with_backoff(func, max_retries, initial_delay): run the for-loop
from attempt 0 with max_retries iterations available. -/
def retry_with_backoff {α : Type} (op : Nat → Attempt α) (max_retries : Nat)
    (initial_delay : ℚ) : RetryOutcome α × List ℚ :=
  retryLoop op max_retries initial_delay max_retries 0

/-- The sleep delay the loop performs after failed attempt j. -/
def delayOf {α : Type} (initial_delay : ℚ) (a : Attempt α) (j : Nat) : ℚ :=
  match a with
  | .rateLimit _ => initial_delay * 2 ^ j
  | _ => initial_delay

/-! ## Exchange withdrawal waiter — wait_for_withdrawal_completion
(server.py lines 1171-1213)

Each loop iteration calls exchange.fetch_withdrawal inside a try block.  The
body either returns the transaction hash (status in the terminal-success set
and txid present), raises (a fetch error, or the explicit raise in the
terminal-failure branch), or falls through to a 10 second sleep.  The except
clause of the same loop catches every exception raised in the body, optionally
logs it, sleeps 10 seconds and continues polling; after the timeout the
function raises a Timeout error.  fuel is the number of polls that fit before
the timeout (timeout / 10s), i the poll index. -/

/-- The record returned by exchange.fetch_withdrawal, reduced to the fields
the waiter reads: status (lowercased by the code) and txid. -/
structure WithdrawalInfo where
  status : String
  txid : Option String
deriving DecidableEq, Repr

/-- Outcome of one fetch_withdrawal call: a record, an error whose text
contains the words not found (tolerated silently), or any other error. -/
inductive FetchWithdrawal where
  | ok (w : WithdrawalInfo)
  | raiseNotFound
  | raiseOther (msg : String)
deriving DecidableEq, Repr

/-- What the body of the try block does on one poll. -/
inductive TryBodyOutcome where
  | ret (txHash : String)
  | raised (msg : String)
  | sleepAndContinue
deriving DecidableEq, Repr

/-- Statuses the waiter treats as terminal success. -/
def successStatuses : List String := ["ok", "complete", "completed", "success"]

/-- Statuses for which the body raises a Withdrawal-failed exception. -/
def failureStatuses : List String := ["failed", "canceled", "cancelled"]

/-- The try-block body of one poll of wait_for_withdrawal_completion: fetch
the withdrawal, lowercase its status; on a terminal-success status with a
present txid return it (with a missing txid the code falls through to the
sleep); on a terminal-failure status raise; otherwise sleep and continue.
A fetch error is a raise before the status logic runs. -/
def withdrawalTryBody (r : FetchWithdrawal) : TryBodyOutcome :=
  match r with
  | .raiseNotFound => .raised "not found"
  | .raiseOther m => .raised m
  | .ok w =>
    let status := lowerString w.status
    if status ∈ successStatuses then
      match w.txid with
      | some h => .ret h
      | none => .sleepAndContinue
    else if status ∈ failureStatuses then
      .raised ("Withdrawal " ++ status)
    else .sleepAndContinue

/-- Result of the waiter.  The only ways out of the Python function are the
return of a transaction hash and the Timeout raise after the while loop: every
exception raised inside the loop body, including the explicit raise of the
terminal-failure branch, is caught by the except clause of the same loop,
which sleeps and continues polling. -/
inductive WithdrawalWaitResult where
  | txHash (h : String)
  | timeoutError
deriving DecidableEq, Repr

/-- wait_for_withdrawal_completion, driven by the poll trace polls. -/
def wait_for_withdrawal_completion (polls : Nat → FetchWithdrawal) :
    Nat → Nat → WithdrawalWaitResult
  | 0, _ => .timeoutError
  | fuel + 1, i =>
    match withdrawalTryBody (polls i) with
    | .ret h => .txHash h
    | .raised _ => wait_for_withdrawal_completion polls fuel (i + 1)
    | .sleepAndContinue => wait_for_withdrawal_completion polls fuel (i + 1)

/-! ## Exchange deposit-credit waiter — wait_for_deposit_credit
(server.py lines 1371-1426)

The initial fetch_balance is wrapped in a try with initial_amount falling
back to 0 on error; on success the code reads balance.get(token, {}) and then
.get(free, 0), so a missing asset reads as 0 — each balance observation is
therefore a rational, and a raised fetch is none.  Each poll computes
increase = current - initial and returns True when
increase >= expected_amount * 0.99; otherwise (and on any fetch error) it
sleeps 30 seconds and re-polls; after the timeout the function raises.
fuel is the number of polls that fit before the timeout. -/

/-- Result of the deposit waiter: the True return, or the Timeout raise. -/
inductive DepositWaitResult where
  | credited
  | timeoutError
deriving DecidableEq, Repr

/-- wait_for_deposit_credit, driven by the initial balance fetch (none when
the fetch raised, making initial_amount 0) and the poll trace polls (none on
each poll whose fetch raised). -/
def wait_for_deposit_credit (initialFetch : Option ℚ) (polls : Nat → Option ℚ)
    (expected_amount : ℚ) : Nat → Nat → DepositWaitResult
  | 0, _ => .timeoutError
  | fuel + 1, i =>
    let initial_amount := initialFetch.getD 0
    match polls i with
    | some current =>
      if expected_amount * (99 / 100) ≤ current - initial_amount then .credited
      else wait_for_deposit_credit initialFetch polls expected_amount fuel (i + 1)
    | none => wait_for_deposit_credit initialFetch polls expected_amount fuel (i + 1)

/-! ## Profitability analyzer — check_arbitrage_profitability
(server.py lines 1037-1101)

The four gateway fetches (fetch_trading_fees on both venues and
fetch_currencies on the buy venue) happen inside one try block; their results
are passed in as an optional record, none meaning some fetch raised, in which
case the except clause returns the conservative fallback.  Every .get default
of the source is modelled by Option.getD with the same default. -/

/-- The opportunity record, reduced to the fields the saga reads.  buy_price
and sell_price are Option-valued: none models a missing key or a None value,
which the .get(..., 0) calls of the source read as 0. -/
structure ArbitrageOpportunity where
  id : String
  token_symbol : String
  buy_exchange : String
  sell_exchange : String
  buy_price : Option ℚ
  sell_price : Option ℚ
  spread_percent : ℚ
  status : String
deriving DecidableEq, Repr

/-- The fetched fee data: maker rate of the buy venue, taker rate of the sell
venue (each none when the nested trading dict omits it, read as 0.001 by the
source default), and the withdrawal fee of the token on the buy venue (none
when fetch_currencies omits the token or its fee, read as 0). -/
structure ProfitabilityFetches where
  buy_maker : Option ℚ
  sell_taker : Option ℚ
  withdrawal_fee : Option ℚ
deriving DecidableEq, Repr

/-- The dict returned by check_arbitrage_profitability, with the nested
breakdown dict flattened into four fields (all 0 in the fallback branch,
whose breakdown is the empty dict). -/
structure ProfitabilityResult where
  is_profitable : Bool
  net_profit : ℚ
  profit_percent : ℚ
  total_fees : ℚ
  buy_fee : ℚ
  sell_fee : ℚ
  withdrawal_fee : ℚ
  gas_fee : ℚ
  min_spread_required : ℚ
deriving DecidableEq, Repr

/-- check_arbitrage_profitability.  In the source min_spread_required divides
by usdt_amount without a zero guard; the total division of ℚ makes that case
0 instead of an error (the callers always pass a positive amount).  The
conditional on withdrawal_fee is Python truthiness: a zero (or missing) fee
selects the flat 5-dollar estimate. -/
def check_arbitrage_profitability (opportunity : ArbitrageOpportunity)
    (usdt_amount : ℚ) (fetches : Option ProfitabilityFetches) : ProfitabilityResult :=
  match fetches with
  | some f =>
    let buy_fee_rate := f.buy_maker.getD (1 / 1000)
    let sell_fee_rate := f.sell_taker.getD (1 / 1000)
    let withdrawal_fee := f.withdrawal_fee.getD 0
    let buy_price := opportunity.buy_price.getD 0
    let sell_price := opportunity.sell_price.getD 0
    let withdrawal_fee_usdt := if withdrawal_fee ≠ 0 then withdrawal_fee * buy_price else 5
    let gas_fee_estimate : ℚ := 1 / 2
    let token_amount := usdt_amount / buy_price
    let buy_fee := usdt_amount * buy_fee_rate
    let sell_fee := token_amount * sell_price * sell_fee_rate
    let total_fees := buy_fee + sell_fee + withdrawal_fee_usdt + gas_fee_estimate
    let gross_revenue := token_amount * sell_price
    let net_revenue := gross_revenue - sell_fee
    let total_cost := usdt_amount + buy_fee + withdrawal_fee_usdt + gas_fee_estimate
    let net_profit := net_revenue - total_cost
    { is_profitable := decide (0 < net_profit)
      net_profit := net_profit
      profit_percent := if 0 < total_cost then net_profit / total_cost * 100 else 0
      total_fees := total_fees
      buy_fee := buy_fee
      sell_fee := sell_fee
      withdrawal_fee := withdrawal_fee_usdt
      gas_fee := gas_fee_estimate
      min_spread_required := total_fees / usdt_amount * 100 }
  | none =>
    { is_profitable := decide (1 < opportunity.spread_percent)
      net_profit := 0
      profit_percent := 0
      total_fees := 0
      buy_fee := 0
      sell_fee := 0
      withdrawal_fee := 0
      gas_fee := 0
      min_spread_required := 1 }

/-! ## Side-effect trace

The side effects the claims talk about: status updates on the opportunity
record, appends to the transaction journal (log_transaction), notifier sends,
the final websocket broadcast, read-only gateway fetches, and fund-moving
gateway operations.  Plain database reads (find_one of the opportunity, the
settings and the wallet) are modelled as reads of the DB argument and are not
effects. -/

inductive Effect where
  | statusUpdate (opportunityId newStatus : String)
  | journalAppend (opportunityId step stepStatus : String)
  | telegramSend (chatId : String)
  | wsBroadcast
  | gatewayFetch (what : String)
  | gatewayMutation (what : String)
deriving DecidableEq, Repr

/-- True for the effects that move funds (orders, withdrawals, transfers). -/
def Effect.movesFunds : Effect → Bool
  | .gatewayMutation _ => true
  | _ => false

/-! ## Simulated execution — execute_simulated_arbitrage
(server.py lines 1870-1919) -/

/-- The errors the modelled execution paths can raise inside the dispatch of
execute_arbitrage (caught there by the generic except handler). -/
inductive SagaError where
  | simInvalidBuyPrice
  | simInvalidSellPrice
  | walletNotConfigured
  | exchangeNotConfigured
  | tokenNotFound
  | notProfitable (net_profit total_fees min_spread : ℚ)
deriving DecidableEq, Repr

/-- The dict returned by execute_simulated_arbitrage. -/
structure SimulatedResult where
  status : String
  opportunity_id : String
  usdt_invested : ℚ
  tokens_bought : ℚ
  sell_value : ℚ
  profit : ℚ
  profit_percent : ℚ
  is_live : Bool
  simulated : Bool
deriving DecidableEq, Repr

/-- Python round(x, ndigits).  The source values the claims exercise are
exact at the rounded precision, so the half-to-even tie rule of Python never
fires on them; the model uses the round of Mathlib (half away from zero up). -/
def pyRound (ndigits : Nat) (x : ℚ) : ℚ :=
  (round (x * 10 ^ ndigits) : ℤ) / 10 ^ ndigits

/-- The fixed pseudo-step sequence of the simulated path, in source order:
step name paired with the journaled status. -/
def simulatedSteps : List (String × String) :=
  [("validate_balance", "completed"),
   ("deposit_to_buy_exchange", "completed"),
   ("place_buy_order", "completed"),
   ("withdraw_to_wallet", "completed"),
   ("deposit_to_sell_exchange", "completed"),
   ("place_sell_order", "completed"),
   ("withdraw_profits", "completed")]

/-- execute_simulated_arbitrage: validate the prices (a missing, None, zero or
negative price raises before any step is journaled), journal the seven fixed
pseudo-steps, and return the simulated result.  Every effect it performs is a
journal append: the function makes no gateway call of either kind. -/
def execute_simulated_arbitrage (opportunity : ArbitrageOpportunity)
    (usdt_amount : ℚ) : Except SagaError SimulatedResult × List Effect :=
  let buy_price := opportunity.buy_price.getD 0
  let sell_price := opportunity.sell_price.getD 0
  if buy_price ≤ 0 then (.error .simInvalidBuyPrice, [])
  else if sell_price ≤ 0 then (.error .simInvalidSellPrice, [])
  else
    let effects := simulatedSteps.map
      (fun s => Effect.journalAppend opportunity.id s.1 s.2)
    let token_amount := usdt_amount / buy_price
    let sell_value := token_amount * sell_price
    let profit := sell_value - usdt_amount
    let profit_percent := if 0 < usdt_amount then profit / usdt_amount * 100 else 0
    (.ok
      { status := "completed"
        opportunity_id := opportunity.id
        usdt_invested := usdt_amount
        tokens_bought := pyRound 8 token_amount
        sell_value := pyRound 4 sell_value
        profit := pyRound 4 profit
        profit_percent := pyRound 4 profit_percent
        is_live := false
        simulated := true }, effects)

/-! ## Full arbitrage with transfers — execute_full_arbitrage_with_transfers,
through its profitability gate (server.py lines 1429-1508)

The function first reads the wallet, both exchange instances and the token
record (each missing one raises an HTTPException before any effect), then sets
the opportunity status to executing, journals profitability_check started,
runs the profitability fetches and the gate.  A failed gate journals the
failure, marks the opportunity failed and raises NotProfitable; a passed gate
optionally notifies and enters the transfer sequence (steps 1-9).  The
post-gate transfer sequence is represented by the transfersPhase marker: every
claim about this function concerns behavior at or before the gate. -/

/-- The wallet record, reduced to its address; the empty string models a
missing or empty (Python falsy) address. -/
structure WalletRecord where
  address : String
deriving DecidableEq, Repr

/-- Environment of one live execution: whether get_exchange_instance yields
both venues, whether the token is in the token collection, whether the
Telegram bot token is configured, and the profitability fetch outcome. -/
structure LiveEnv where
  exchanges_ok : Bool
  token_in_db : Bool
  bot_token_set : Bool
  profitability_fetches : Option ProfitabilityFetches
deriving DecidableEq, Repr

/-- Outcome of execute_full_arbitrage_with_transfers, as far as modelled. -/
inductive FullArbOutcome where
  | failed (e : SagaError)
  | transfersPhase (p : ProfitabilityResult)
deriving DecidableEq, Repr

/-- The gateway fetch effects performed inside check_arbitrage_profitability:
all four calls when every fetch succeeds; at least the first call when some
fetch raised (the model charges exactly one). -/
def profitabilityFetchEffects (fetches : Option ProfitabilityFetches) : List Effect :=
  match fetches with
  | some _ =>
    [Effect.gatewayFetch "buy_exchange.fetch_trading_fees",
     Effect.gatewayFetch "sell_exchange.fetch_trading_fees",
     Effect.gatewayFetch "buy_exchange.fetch_currencies"]
  | none => [Effect.gatewayFetch "buy_exchange.fetch_trading_fees"]

/-- execute_full_arbitrage_with_transfers through its profitability gate. -/
def execute_full_arbitrage_with_transfers (opportunity : ArbitrageOpportunity)
    (usdt_amount : ℚ) (wallet : Option WalletRecord) (env : LiveEnv)
    (telegram_chat_id : Option String) : FullArbOutcome × List Effect :=
  match wallet with
  | none => (.failed .walletNotConfigured, [])
  | some _ =>
    if ¬ env.exchanges_ok then (.failed .exchangeNotConfigured, [])
    else if ¬ env.token_in_db then (.failed .tokenNotFound, [])
    else
      let preGate : List Effect :=
        [Effect.statusUpdate opportunity.id "executing",
         Effect.journalAppend opportunity.id "profitability_check" "started"] ++
        profitabilityFetchEffects env.profitability_fetches
      let profitability :=
        check_arbitrage_profitability opportunity usdt_amount env.profitability_fetches
      if profitability.is_profitable then
        let telegramEffs := match telegram_chat_id with
          | some chat => if env.bot_token_set then [Effect.telegramSend chat] else []
          | none => []
        (.transfersPhase profitability,
          preGate ++
          [Effect.journalAppend opportunity.id "profitability_check" "completed"] ++
          telegramEffs)
      else
        (.failed (.notProfitable profitability.net_profit profitability.total_fees
            profitability.min_spread_required),
          preGate ++
          [Effect.journalAppend opportunity.id "profitability_check" "failed",
           Effect.statusUpdate opportunity.id "failed"])

/-! ## Orchestrator entry point — execute_arbitrage
(server.py lines 925-1013) -/

/-- The settings record, reduced to the keys execute_arbitrage reads; the
.get defaults of the source are applied where the record is read. -/
structure Settings where
  is_live_mode : Bool
  telegram_enabled : Bool
  telegram_chat_id : String
  slippage_tolerance : ℚ
deriving DecidableEq, Repr

/-- The request body of POST /arbitrage/execute (ExecuteArbitrageRequest). -/
structure ExecuteArbitrageRequest where
  opportunity_id : String
  usdt_amount : ℚ
  confirmed : Bool
deriving DecidableEq, Repr

/-- The database state execute_arbitrage reads. -/
structure DB where
  opportunities : List ArbitrageOpportunity
  settings : Option Settings
  wallet : Option WalletRecord
deriving DecidableEq, Repr

/-- db.arbitrage_opportunities.find_one on the id. -/
def findOpportunity (db : DB) (opportunity_id : String) : Option ArbitrageOpportunity :=
  db.opportunities.find? (fun o => o.id == opportunity_id)

/-- Outcome of execute_arbitrage.  The HTTPException raises before the
dispatch keep their identity; an exception raised inside the dispatched
execution is caught by the generic except handler, which marks the
opportunity failed and re-raises a 500 executionFailed.  The two live paths
whose tails are outside the modelled scope end in a marker:
reachedTransfersPhase (full variant past its gate) and dispatchedLegacy
(execute_real_arbitrage, the pre-positioned-funds fallback, which no claim
concerns). -/
inductive ExecuteOutcome where
  | notFound
  | invalidBuyPrice
  | invalidSellPrice
  | confirmationRequired
  | executionFailed (e : SagaError)
  | completedSimulated (r : SimulatedResult)
  | reachedTransfersPhase (p : ProfitabilityResult)
  | dispatchedLegacy
deriving DecidableEq, Repr

/-- The notifier effects guarded by telegram_enabled and a nonempty chat id
(pattern of every notification site in execute_arbitrage). -/
def telegramEffects (telegram_enabled : Bool) (telegram_chat_id : String) : List Effect :=
  if telegram_enabled && !(telegram_chat_id == "") then
    [Effect.telegramSend telegram_chat_id]
  else []

/-- execute_arbitrage: look up the opportunity (404 when absent), validate
both prices (400 InvalidOpportunity on a missing, zero or negative one), read
the settings with their defaults, enforce the live-confirmation gate (400
before any side effect), then set the status to executing, notify, and
dispatch on mode: live with a wallet address runs the full-transfer variant,
live without one the legacy variant, otherwise the simulated variant.  A
normal result updates the status to the returned one, notifies and
broadcasts; an exception from the dispatch marks the opportunity failed,
notifies the error and re-raises as a 500. -/
def execute_arbitrage (db : DB) (request : ExecuteArbitrageRequest)
    (env : LiveEnv) : ExecuteOutcome × List Effect :=
  match findOpportunity db request.opportunity_id with
  | none => (.notFound, [])
  | some opportunity =>
    let buy_price := opportunity.buy_price.getD 0
    let sell_price := opportunity.sell_price.getD 0
    if buy_price ≤ 0 then (.invalidBuyPrice, [])
    else if sell_price ≤ 0 then (.invalidSellPrice, [])
    else
      let is_live := (db.settings.map Settings.is_live_mode).getD false
      let telegram_enabled := (db.settings.map Settings.telegram_enabled).getD false
      let telegram_chat_id := (db.settings.map Settings.telegram_chat_id).getD ""
      if is_live && !request.confirmed then (.confirmationRequired, [])
      else
        let startEffects :=
          Effect.statusUpdate request.opportunity_id "executing" ::
          telegramEffects telegram_enabled telegram_chat_id
        let chatForSaga : Option String :=
          if telegram_enabled then some telegram_chat_id else none
        let dispatched : Except SagaError ExecuteOutcome × List Effect :=
          if is_live then
            match db.wallet with
            | some w =>
              if !(w.address == "") then
                match execute_full_arbitrage_with_transfers opportunity
                    request.usdt_amount db.wallet env chatForSaga with
                | (.transfersPhase p, effs) => (.ok (.reachedTransfersPhase p), effs)
                | (.failed e, effs) => (.error e, effs)
              else (.ok .dispatchedLegacy, [])
            | none => (.ok .dispatchedLegacy, [])
          else
            match execute_simulated_arbitrage opportunity request.usdt_amount with
            | (.ok r, effs) =>
              (.ok (.completedSimulated r),
                effs ++
                [Effect.statusUpdate request.opportunity_id r.status] ++
                telegramEffects telegram_enabled telegram_chat_id ++
                [Effect.wsBroadcast])
            | (.error e, effs) => (.error e, effs)
        match dispatched with
        | (.ok outcome, effs) => (outcome, startEffects ++ effs)
        | (.error e, effs) =>
          (.executionFailed e,
            startEffects ++ effs ++
            [Effect.statusUpdate request.opportunity_id "failed"] ++
            telegramEffects telegram_enabled telegram_chat_id)

/-! ## Concrete fixtures used by witnesses and counterexamples -/

/-- An opportunity whose buy price is zero (invalid). -/
def fxOppZeroBuy : ArbitrageOpportunity :=
  { id := "opp1", token_symbol := "TOK", buy_exchange := "mexc", sell_exchange := "gate",
    buy_price := some 0, sell_price := some 2, spread_percent := 5, status := "detected" }

/-- An already-terminal opportunity with valid prices. -/
def fxOppCompleted : ArbitrageOpportunity :=
  { id := "opp1", token_symbol := "TOK", buy_exchange := "mexc", sell_exchange := "gate",
    buy_price := some 1, sell_price := some 2, spread_percent := 5, status := "completed" }

/-- The opportunity of the deterministic simulated-profit test vector:
buy at 1.00, sell at 1.05. -/
def fxOppSpec : ArbitrageOpportunity :=
  { id := "opp1", token_symbol := "TOK", buy_exchange := "mexc", sell_exchange := "gate",
    buy_price := some 1, sell_price := some (21 / 20), spread_percent := 5, status := "detected" }

/-- An opportunity whose simulated profit is not representable in 4 decimal
digits: buy at 3, sell at 4 makes the exact profit 100/3. -/
def fxOppThirds : ArbitrageOpportunity :=
  { id := "opp1", token_symbol := "TOK", buy_exchange := "mexc", sell_exchange := "gate",
    buy_price := some 3, sell_price := some 4, spread_percent := 5, status := "detected" }

/-- An opportunity with no spread at all (unprofitable after fees). -/
def fxOppFlat : ArbitrageOpportunity :=
  { id := "opp1", token_symbol := "TOK", buy_exchange := "mexc", sell_exchange := "gate",
    buy_price := some 1, sell_price := some 1, spread_percent := 0, status := "detected" }

/-- Settings with live mode on and notifications off. -/
def fxLiveSettings : Settings :=
  { is_live_mode := true, telegram_enabled := false, telegram_chat_id := "",
    slippage_tolerance := 1 / 2 }

/-- Settings with simulated mode and notifications off. -/
def fxSimSettings : Settings :=
  { is_live_mode := false, telegram_enabled := false, telegram_chat_id := "",
    slippage_tolerance := 1 / 2 }

/-- A live environment whose profitability fetches all raise. -/
def fxEnvNoFetches : LiveEnv :=
  { exchanges_ok := true, token_in_db := true, bot_token_set := false,
    profitability_fetches := none }

/-- Fee data as fetched: 0.1 percent on both sides, token withdrawal fee 1. -/
def fxFetches : ProfitabilityFetches :=
  { buy_maker := some (1 / 1000), sell_taker := some (1 / 1000), withdrawal_fee := some 1 }

/-- A live environment whose profitability fetches all succeed. -/
def fxEnvFetches : LiveEnv :=
  { exchanges_ok := true, token_in_db := true, bot_token_set := false,
    profitability_fetches := some fxFetches }

/-- An execute request for 100 USDT without the live confirmation flag. -/
def fxReqUnconfirmed : ExecuteArbitrageRequest :=
  { opportunity_id := "opp1", usdt_amount := 100, confirmed := false }

/-- A configured settlement wallet. -/
def fxWallet : WalletRecord := { address := "0xwallet" }

/-- An operation that is rate limited twice and then succeeds. -/
def fxOpThenOk : Nat → Attempt Nat :=
  fun i => if i = 0 then .rateLimit "rl0" else if i = 1 then .err "e1" else .ok 42

/-- An operation that always fails with a generic error. -/
def fxOpAlwaysErr : Nat → Attempt Nat := fun _ => .err "boom"

/-- A deposit-credit poll trace: two transient fetch errors, then a balance
that covers the expected amount. -/
def fxDepositPolls : Nat → Option ℚ :=
  fun i => if i < 2 then none else some 110

/-- A live-mode database holding only the zero-buy-price opportunity. -/
def fxDbLiveZeroBuy : DB :=
  { opportunities := [fxOppZeroBuy], settings := some fxLiveSettings, wallet := none }

/-- A simulated-mode database holding only the already-completed opportunity. -/
def fxDbSimCompleted : DB :=
  { opportunities := [fxOppCompleted], settings := some fxSimSettings, wallet := none }

/-- If every attempt from the current index up to index i fails and attempt i
succeeds with v, the loop returns v, having slept once per failed attempt. -/
theorem retryLoop_success {α : Type} (op : Nat → Attempt α) (n : Nat) (d : ℚ) :
    ∀ remaining attempt i v, attempt + remaining = n → attempt ≤ i → i < n →
      (∀ j, attempt ≤ j → j < i → (op j).isFailure = true) → op i = .ok v →
      retryLoop op n d remaining attempt =
        (.value v, (List.range' attempt (i - attempt)).map (fun j => delayOf d (op j) j)) := by
  intro remaining
  induction remaining with
  | zero =>
    intro attempt i v hsum hle hlt _ _
    omega
  | succ r ih =>
    intro attempt i v hsum hle hlt hfail hok
    rcases Nat.eq_or_lt_of_le hle with heq | hstrict
    · subst heq
      simp [retryLoop, hok]
    · have hf := hfail attempt (le_refl _) hstrict
      have hne : attempt ≠ n - 1 := by omega
      have hrec := ih (attempt + 1) i v (by omega) (by omega) hlt
        (fun j h1 h2 => hfail j (by omega) h2) hok
      have hrange : List.range' attempt (i - attempt) =
          attempt :: List.range' (attempt + 1) (i - (attempt + 1)) := by
        have : i - attempt = (i - (attempt + 1)) + 1 := by omega
        rw [this, List.range'_succ]
      cases hop : op attempt with
      | ok v0 => simp [Attempt.isFailure, hop] at hf
      | rateLimit m =>
        simp only [retryLoop, hop, if_neg hne, hrec, hrange, List.map_cons]
        simp [delayOf, hop]
      | err m =>
        simp only [retryLoop, hop, if_neg hne, hrec, hrange, List.map_cons]
        simp [delayOf, hop]

/-- If every attempt from the current index through the last one fails, the
loop re-raises the error of the final attempt, having slept once per failed
non-final attempt. -/
theorem retryLoop_allFail {α : Type} (op : Nat → Attempt α) (n : Nat) (d : ℚ) :
    ∀ remaining attempt, attempt + remaining = n → attempt < n →
      (∀ j, attempt ≤ j → j < n → (op j).isFailure = true) →
      retryLoop op n d remaining attempt =
        (.raised ((op (n - 1)).errMsg),
          (List.range' attempt (n - 1 - attempt)).map (fun j => delayOf d (op j) j)) := by
  intro remaining
  induction remaining with
  | zero =>
    intro attempt hsum hlt _
    omega
  | succ r ih =>
    intro attempt hsum hlt hfail
    have hf := hfail attempt (le_refl _) hlt
    by_cases hlast : attempt = n - 1
    · cases hop : op attempt with
      | ok v0 => simp [Attempt.isFailure, hop] at hf
      | rateLimit m =>
        have : n - 1 - attempt = 0 := by omega
        simp [retryLoop, hop, if_pos hlast, this, ← hlast, hop, Attempt.errMsg]
      | err m =>
        have : n - 1 - attempt = 0 := by omega
        simp [retryLoop, hop, if_pos hlast, this, ← hlast, hop, Attempt.errMsg]
    · have hrec := ih (attempt + 1) (by omega) (by omega)
        (fun j h1 h2 => hfail j (by omega) h2)
      have hrange : List.range' attempt (n - 1 - attempt) =
          attempt :: List.range' (attempt + 1) (n - 1 - (attempt + 1)) := by
        have : n - 1 - attempt = (n - 1 - (attempt + 1)) + 1 := by omega
        rw [this, List.range'_succ]
      cases hop : op attempt with
      | ok v0 => simp [Attempt.isFailure, hop] at hf
      | rateLimit m =>
        simp only [retryLoop, hop, if_neg hlast, hrec, hrange, List.map_cons]
        simp [delayOf, hop]
      | err m =>
        simp only [retryLoop, hop, if_neg hlast, hrec, hrange, List.map_cons]
        simp [delayOf, hop]

/-- While the first k attempts all fail (k at most max_retries - 1), the first
k sleep delays are exactly delayOf applied to those attempts, whatever happens
later. -/
theorem retryLoop_sleepPrefix {α : Type} (op : Nat → Attempt α) (n : Nat) (d : ℚ) :
    ∀ k remaining attempt, attempt + remaining = n → attempt + k ≤ n - 1 →
      (∀ j, attempt ≤ j → j < attempt + k → (op j).isFailure = true) →
      (retryLoop op n d remaining attempt).2.take k =
        (List.range' attempt k).map (fun j => delayOf d (op j) j) := by
  intro k
  induction k with
  | zero => intro remaining attempt _ _ _; simp
  | succ k ih =>
    intro remaining attempt hsum hbound hfail
    have hlt : attempt < n := by omega
    have hne : attempt ≠ n - 1 := by omega
    obtain ⟨r, hr⟩ : ∃ r, remaining = r + 1 := ⟨remaining - 1, by omega⟩
    subst hr
    have hf := hfail attempt (le_refl _) (by omega)
    have hrec := ih r (attempt + 1) (by omega) (by omega)
      (fun j h1 h2 => hfail j (by omega) (by omega))
    have hrange : List.range' attempt (k + 1) =
        attempt :: List.range' (attempt + 1) k := List.range'_succ _ _ _
    cases hop : op attempt with
    | ok v0 => simp [Attempt.isFailure, hop] at hf
    | rateLimit m =>
      simp only [retryLoop, hop, if_neg hne, hrange, List.map_cons, List.take_succ_cons, hrec]
      simp [delayOf, hop]
    | err m =>
      simp only [retryLoop, hop, if_neg hne, hrange, List.map_cons, List.take_succ_cons, hrec]
      simp [delayOf, hop]

/-- The deposit waiter starting at poll index i with fuel polls left returns
True exactly when one of those polls observes a balance whose increase over
the snapshot reaches 99 percent of the expected amount. -/
theorem wait_for_deposit_credit_credited_iff (initialFetch : Option ℚ)
    (polls : Nat → Option ℚ) (E : ℚ) :
    ∀ fuel i, wait_for_deposit_credit initialFetch polls E fuel i = .credited ↔
      ∃ j, i ≤ j ∧ j < i + fuel ∧
        ∃ c, polls j = some c ∧ E * (99 / 100) ≤ c - initialFetch.getD 0 := by
  intro fuel
  induction fuel with
  | zero =>
    intro i
    simp only [wait_for_deposit_credit]
    constructor
    · intro h; exact absurd h (by simp)
    · rintro ⟨j, h1, h2, _⟩; omega
  | succ fuel ih =>
    intro i
    simp only [wait_for_deposit_credit]
    cases hp : polls i with
    | some c =>
      by_cases hc : E * (99 / 100) ≤ c - initialFetch.getD 0
      · simp only [if_pos hc]
        constructor
        · intro _; exact ⟨i, le_refl _, by omega, c, hp, hc⟩
        · intro _; trivial
      · simp only [if_neg hc, ih]
        constructor
        · rintro ⟨j, h1, h2, c2, hp2, hc2⟩
          exact ⟨j, by omega, by omega, c2, hp2, hc2⟩
        · rintro ⟨j, h1, h2, c2, hp2, hc2⟩
          refine ⟨j, ?_, by omega, c2, hp2, hc2⟩
          rcases Nat.eq_or_lt_of_le h1 with rfl | h
          · rw [hp] at hp2
            cases hp2
            exact absurd hc2 hc
          · omega
    | none =>
      rw [ih]
      constructor
      · rintro ⟨j, h1, h2, c2, hp2, hc2⟩
        exact ⟨j, by omega, by omega, c2, hp2, hc2⟩
      · rintro ⟨j, h1, h2, c2, hp2, hc2⟩
        refine ⟨j, ?_, by omega, c2, hp2, hc2⟩
        rcases Nat.eq_or_lt_of_le h1 with rfl | h
        · rw [hp] at hp2; cases hp2
        · omega

/-- C5: the deposit-credit waiter snapshots the free balance (0 when the
snapshot fetch raised), computes increase = current - initial on each poll,
and succeeds if and only if some poll within the timeout sees
increase >= expected * 0.99; a balance that never exceeds the snapshot makes
it time out whenever the expected amount is positive, and fetch errors on
earlier polls do not abort the wait: a later sufficient poll still succeeds. -/
theorem C5_deposit_credit_wait (initialFetch : Option ℚ) (polls : Nat → Option ℚ)
    (E : ℚ) (fuel : Nat) :
    (wait_for_deposit_credit initialFetch polls E fuel 0 = .credited ↔
      ∃ j, j < fuel ∧ ∃ c, polls j = some c ∧ E * (99 / 100) ≤ c - initialFetch.getD 0)
  ∧ (0 < E → (∀ j c, polls j = some c → c ≤ initialFetch.getD 0) →
      wait_for_deposit_credit initialFetch polls E fuel 0 = .timeoutError)
  ∧ (∀ k c, k < fuel → polls k = some c → E * (99 / 100) ≤ c - initialFetch.getD 0 →
      wait_for_deposit_credit initialFetch polls E fuel 0 = .credited) := by
  have hiff := wait_for_deposit_credit_credited_iff initialFetch polls E fuel 0
  simp only [Nat.zero_add, Nat.zero_le, true_and] at hiff
  refine ⟨hiff, ?_, ?_⟩
  · intro hE hstag
    cases hres : wait_for_deposit_credit initialFetch polls E fuel 0 with
    | credited =>
      obtain ⟨j, _, c, hp, hc⟩ := hiff.mp hres
      have h1 : c - initialFetch.getD 0 ≤ 0 := by
        have := hstag j c hp; linarith
      have h2 : 0 < E * (99 / 100) := by positivity
      linarith
    | timeoutError => rfl
  · intro k c hk hp hc
    exact hiff.mpr ⟨k, hk, c, hp, hc⟩

/-- C5 witness: with snapshot 10 and expected amount 100, two transient fetch
errors followed by a balance of 110 succeed within 5 polls, and a trace whose
balance stays at 9 (below the snapshot) times out. -/
theorem C5_witness :
    wait_for_deposit_credit (some 10) fxDepositPolls 100 5 0 = .credited
  ∧ wait_for_deposit_credit (some 10) (fun _ => some 9) 100 5 0 = .timeoutError := by
  constructor
  · exact (C5_deposit_credit_wait (some 10) fxDepositPolls 100 5).2.2 2 110
      (by norm_num) (by norm_num [fxDepositPolls]) (by norm_num)
  · exact (C5_deposit_credit_wait (some 10) (fun _ => some 9) 100 5).2.1
      (by norm_num)
      (by intro j c h; simp only [Option.some.injEq] at h; subst h; norm_num)

/-- C3: the exchange-withdrawal waiter. The try-block body does raise on the
statuses failed, canceled and cancelled, but that raise is caught by the
except clause of the same polling loop, which sleeps and re-polls: a
withdrawal stuck on status failed therefore never terminates the wait as a
terminal failure — the waiter keeps polling until the timeout.  A
terminal-success status with a transaction hash returns that hash, any other
status keeps polling, and not-found fetch errors are tolerated until the
timeout. -/
theorem C3_withdrawal_failure_swallowed :
    withdrawalTryBody (.ok ⟨"failed", some "0xdead"⟩) = .raised "Withdrawal failed"
  ∧ wait_for_withdrawal_completion (fun _ => .ok ⟨"failed", some "0xdead"⟩) 4 0 =
      .timeoutError
  ∧ wait_for_withdrawal_completion (fun _ => .ok ⟨"cancelled", none⟩) 4 0 = .timeoutError
  ∧ wait_for_withdrawal_completion (fun _ => .ok ⟨"completed", some "0xabc"⟩) 4 0 =
      .txHash "0xabc"
  ∧ wait_for_withdrawal_completion (fun _ => .ok ⟨"pending", some "0xabc"⟩) 4 0 =
      .timeoutError
  ∧ wait_for_withdrawal_completion (fun _ => .raiseNotFound) 4 0 = .timeoutError :=
  ⟨rfl, rfl, rfl, rfl, rfl, rfl⟩

/-- C7: retry_with_backoff returns the value of the first successful attempt
within max_retries; when all max_retries attempts fail it re-raises the last
error; while attempts keep failing, the sleep after failed attempt j is
delayOf: initial_delay * 2 ^ j after a rate-limit error (doubling with each
consecutive rate-limited attempt) and the fixed initial_delay after any other
error. -/
theorem C7_retry_with_backoff {α : Type} (op : Nat → Attempt α) (n : Nat) (d : ℚ) :
    (∀ i v, i < n → (∀ j, j < i → (op j).isFailure = true) → op i = .ok v →
      (retry_with_backoff op n d).1 = .value v)
  ∧ (0 < n → (∀ j, j < n → (op j).isFailure = true) →
      (retry_with_backoff op n d).1 = .raised ((op (n - 1)).errMsg))
  ∧ (∀ k, k ≤ n - 1 → (∀ j, j < k → (op j).isFailure = true) →
      (retry_with_backoff op n d).2.take k =
        (List.range k).map (fun j => delayOf d (op j) j))
  ∧ (∀ j m, op j = .rateLimit m → delayOf d (op j) j = d * 2 ^ j)
  ∧ (∀ j m, op j = .err m → delayOf d (op j) j = d) := by
  refine ⟨?_, ?_, ?_, ?_, ?_⟩
  · intro i v hi hfail hok
    have h := retryLoop_success op n d n 0 i v (by omega) (by omega) hi
      (fun j _ hj => hfail j hj) hok
    rw [retry_with_backoff, h]
  · intro hn hfail
    have h := retryLoop_allFail op n d n 0 (by omega) hn
      (fun j _ hj => hfail j hj)
    rw [retry_with_backoff, h]
  · intro k hk hfail
    have h := retryLoop_sleepPrefix op n d k n 0 (by omega) (by omega)
      (fun j _ hj => hfail j (by omega))
    rw [retry_with_backoff, h, List.range_eq_range']
  · intro j m hj; simp [delayOf, hj]
  · intro j m hj; simp [delayOf, hj]

/-- C7 witness: an operation that is rate limited, then fails generically,
then succeeds returns 42 out of 3 attempts, sleeping 1 * 2 ^ 0 = 1 after the
rate-limited attempt and the fixed 1 after the generic one; an operation that
always fails surfaces the last error after 2 attempts. -/
theorem C7_witness :
    (retry_with_backoff fxOpThenOk 3 1).1 = .value 42
  ∧ (retry_with_backoff fxOpAlwaysErr 2 1).1 = .raised "boom"
  ∧ (retry_with_backoff fxOpThenOk 3 1).2.take 2 = [1, 1]
  ∧ delayOf 1 (fxOpThenOk 0) 0 = 1 * 2 ^ 0 := by
  refine ⟨?_, ?_, ?_, ?_⟩
  · exact (C7_retry_with_backoff fxOpThenOk 3 1).1 2 42 (by norm_num)
      (by intro j hj; interval_cases j <;> rfl) rfl
  · exact (C7_retry_with_backoff fxOpAlwaysErr 2 1).2.1 (by norm_num)
      (fun j _ => rfl)
  · have h := (C7_retry_with_backoff fxOpThenOk 3 1).2.2.1 2 (by norm_num)
      (by intro j hj; interval_cases j <;> rfl)
    rw [h]
    norm_num [List.range_succ, delayOf, fxOpThenOk]
  · exact (C7_retry_with_backoff fxOpThenOk 3 1).2.2.2.1 0 "rl0" rfl

/-- C8: when any profitability fetch raises, check_arbitrage_profitability
returns the conservative fallback: profitable exactly when the recorded
spread percentage exceeds 1.0, with min_spread_required reported as 1.0 and
every other field zero. -/
theorem C8_fetch_error_fallback (opportunity : ArbitrageOpportunity)
    (usdt_amount : ℚ) :
    check_arbitrage_profitability opportunity usdt_amount none =
      { is_profitable := decide (1 < opportunity.spread_percent), net_profit := 0,
        profit_percent := 0, total_fees := 0, buy_fee := 0, sell_fee := 0,
        withdrawal_fee := 0, gas_fee := 0, min_spread_required := 1 }
  ∧ ((check_arbitrage_profitability opportunity usdt_amount none).is_profitable = true ↔
      1 < opportunity.spread_percent) := by
  refine ⟨rfl, ?_⟩
  simp [check_arbitrage_profitability]

/-- C10: calling retry_with_backoff with max_retries = 0 runs the loop body
zero times: the result is the Python implicit None with no sleeps, and it does
not depend on the operation at all — the operation is never invoked. -/
theorem C10_zero_retries_returns_none {α : Type} (op op2 : Nat → Attempt α) (d : ℚ) :
    retry_with_backoff op 0 d = (.fellThroughNone, [])
  ∧ retry_with_backoff op 0 d = retry_with_backoff op2 0 d :=
  ⟨rfl, rfl⟩

/-- In live mode without the confirmed flag, execute_arbitrage reduces to its
effect-free validation prefix: 404 for a missing opportunity, the two
InvalidOpportunity rejections, or the ConfirmationRequired rejection. -/
theorem execute_arbitrage_live_unconfirmed_eq (db : DB)
    (request : ExecuteArbitrageRequest) (env : LiveEnv)
    (hlive : (db.settings.map Settings.is_live_mode).getD false = true)
    (hconf : request.confirmed = false) :
    execute_arbitrage db request env =
      match findOpportunity db request.opportunity_id with
      | none => (.notFound, [])
      | some opportunity =>
        if opportunity.buy_price.getD 0 ≤ 0 then (.invalidBuyPrice, [])
        else if opportunity.sell_price.getD 0 ≤ 0 then (.invalidSellPrice, [])
        else (.confirmationRequired, []) := by
  simp only [execute_arbitrage]
  cases hf : findOpportunity db request.opportunity_id with
  | none => rfl
  | some opp => simp [hlive, hconf]

/-- C1 (amended): a live-mode call without the confirmed flag always fails
before any side effect — the effect trace is empty, so no status update,
journal append, notification or gateway call happens and no funds move; the
error is ConfirmationRequired whenever the opportunity exists with positive
prices, while a missing opportunity or a non-positive price fails even
earlier, with NotFound or InvalidOpportunity. -/
theorem C1_live_unconfirmed_fails_closed (db : DB)
    (request : ExecuteArbitrageRequest) (env : LiveEnv)
    (hlive : (db.settings.map Settings.is_live_mode).getD false = true)
    (hconf : request.confirmed = false) :
    (execute_arbitrage db request env).2 = []
  ∧ (∀ opp, findOpportunity db request.opportunity_id = some opp →
      0 < opp.buy_price.getD 0 → 0 < opp.sell_price.getD 0 →
      (execute_arbitrage db request env).1 = .confirmationRequired)
  ∧ ((execute_arbitrage db request env).1 = .notFound ∨
     (execute_arbitrage db request env).1 = .invalidBuyPrice ∨
     (execute_arbitrage db request env).1 = .invalidSellPrice ∨
     (execute_arbitrage db request env).1 = .confirmationRequired) := by
  rw [execute_arbitrage_live_unconfirmed_eq db request env hlive hconf]
  cases hf : findOpportunity db request.opportunity_id with
  | none =>
    refine ⟨rfl, ?_, Or.inl rfl⟩
    intro opp hopp
    cases hopp
  | some opp =>
    by_cases hb : opp.buy_price.getD 0 ≤ 0
    · refine ⟨by simp [hb], ?_, by simp [hb]⟩
      intro opp2 hopp2 hb2 _
      injection hopp2 with h2
      subst h2
      exact absurd hb (not_le.mpr hb2)
    · by_cases hs : opp.sell_price.getD 0 ≤ 0
      · refine ⟨by simp [hb, hs], ?_, by simp [hb, hs]⟩
        intro opp2 hopp2 _ hs2
        injection hopp2 with h2
        subst h2
        exact absurd hs (not_le.mpr hs2)
      · exact ⟨by simp [hb, hs], fun _ _ _ _ => by simp [hb, hs],
          by simp [hb, hs]⟩

/-- C1 witness: live settings, confirmed false, on a database holding one
valid-priced opportunity: the call returns ConfirmationRequired with an empty
effect trace. -/
theorem C1_witness :
    (execute_arbitrage
        { opportunities := [fxOppCompleted], settings := some fxLiveSettings,
          wallet := none } fxReqUnconfirmed fxEnvNoFetches).2 = []
  ∧ (execute_arbitrage
        { opportunities := [fxOppCompleted], settings := some fxLiveSettings,
          wallet := none } fxReqUnconfirmed fxEnvNoFetches).1 = .confirmationRequired := by
  have h := C1_live_unconfirmed_fails_closed
    { opportunities := [fxOppCompleted], settings := some fxLiveSettings, wallet := none }
    fxReqUnconfirmed fxEnvNoFetches rfl rfl
  exact ⟨h.1, h.2.1 fxOppCompleted rfl (by norm_num [fxOppCompleted])
    (by norm_num [fxOppCompleted])⟩

/-- C1 counterexample: the claim as stated promises the ConfirmationRequired
error on every live unconfirmed call, but an opportunity whose buy price is
zero fails earlier, with the InvalidOpportunity rejection instead (the price
validation precedes the confirmation gate). -/
theorem C1_counterexample :
    (execute_arbitrage fxDbLiveZeroBuy fxReqUnconfirmed fxEnvNoFetches).1 =
      .invalidBuyPrice
  ∧ (execute_arbitrage fxDbLiveZeroBuy fxReqUnconfirmed fxEnvNoFetches).1 ≠
      .confirmationRequired
  ∧ (fxDbLiveZeroBuy.settings.map Settings.is_live_mode).getD false = true
  ∧ fxReqUnconfirmed.confirmed = false :=
  ⟨rfl, by show ExecuteOutcome.invalidBuyPrice ≠ ExecuteOutcome.confirmationRequired; simp,
   rfl, rfl⟩

/-- C2: an opportunity whose buy or sell price is missing, None, zero or
negative is rejected by execute_arbitrage with the InvalidOpportunity error
and an empty effect trace — no step runs, nothing is journaled, no gateway
call of any kind is made; the simulated variant independently re-validates
and raises the same way, journaling none of its pseudo-steps. -/
theorem C2_invalid_price_rejected (db : DB) (request : ExecuteArbitrageRequest)
    (env : LiveEnv) (opp : ArbitrageOpportunity)
    (hfound : findOpportunity db request.opportunity_id = some opp)
    (hbad : opp.buy_price.getD 0 ≤ 0 ∨ opp.sell_price.getD 0 ≤ 0) :
    ((execute_arbitrage db request env).1 = .invalidBuyPrice ∨
     (execute_arbitrage db request env).1 = .invalidSellPrice)
  ∧ (execute_arbitrage db request env).2 = []
  ∧ ∀ amount, (execute_simulated_arbitrage opp amount).2 = [] ∧
      ((execute_simulated_arbitrage opp amount).1 = .error .simInvalidBuyPrice ∨
       (execute_simulated_arbitrage opp amount).1 = .error .simInvalidSellPrice) := by
  by_cases hb : opp.buy_price.getD 0 ≤ 0
  · refine ⟨?_, ?_, ?_⟩
    · left; simp [execute_arbitrage, hfound, hb]
    · simp [execute_arbitrage, hfound, hb]
    · intro amount
      refine ⟨by simp [execute_simulated_arbitrage, hb], ?_⟩
      left; simp [execute_simulated_arbitrage, hb]
  · have hs : opp.sell_price.getD 0 ≤ 0 := hbad.resolve_left hb
    refine ⟨?_, ?_, ?_⟩
    · right; simp [execute_arbitrage, hfound, hb, hs]
    · simp [execute_arbitrage, hfound, hb, hs]
    · intro amount
      refine ⟨by simp [execute_simulated_arbitrage, hb, hs], ?_⟩
      right; simp [execute_simulated_arbitrage, hb, hs]

/-- C2 witness: the zero-buy-price opportunity is rejected with
InvalidOpportunity, no effects, in both the orchestrator and the simulated
variant. -/
theorem C2_witness :
    ((execute_arbitrage fxDbLiveZeroBuy fxReqUnconfirmed fxEnvNoFetches).1 =
        .invalidBuyPrice ∨
     (execute_arbitrage fxDbLiveZeroBuy fxReqUnconfirmed fxEnvNoFetches).1 =
        .invalidSellPrice)
  ∧ (execute_arbitrage fxDbLiveZeroBuy fxReqUnconfirmed fxEnvNoFetches).2 = []
  ∧ (execute_simulated_arbitrage fxOppZeroBuy 100).2 = [] := by
  have h := C2_invalid_price_rejected fxDbLiveZeroBuy fxReqUnconfirmed fxEnvNoFetches
    fxOppZeroBuy rfl (Or.inl (by norm_num [fxOppZeroBuy]))
  exact ⟨h.1, h.2.1, (h.2.2 100).1⟩

/-- C4 counterexample: a call to execute on an opportunity whose status is
already completed is not rejected — the orchestrator sets the record to
executing and runs the whole execution again, returning a fresh completed
result. -/
theorem C4_counterexample :
    fxOppCompleted.status = "completed"
  ∧ (execute_arbitrage fxDbSimCompleted fxReqUnconfirmed fxEnvNoFetches).1 =
      .completedSimulated
        { status := "completed", opportunity_id := "opp1", usdt_invested := 100,
          tokens_bought := 100, sell_value := 200, profit := 100,
          profit_percent := 100, is_live := false, simulated := true }
  ∧ Effect.statusUpdate "opp1" "executing" ∈
      (execute_arbitrage fxDbSimCompleted fxReqUnconfirmed fxEnvNoFetches).2 := by
  refine ⟨rfl, ?_, ?_⟩
  · norm_num [execute_arbitrage, findOpportunity, execute_simulated_arbitrage,
      simulatedSteps, telegramEffects, pyRound, fxDbSimCompleted, fxOppCompleted,
      fxSimSettings, fxReqUnconfirmed, fxEnvNoFetches, List.find?]
  · norm_num [execute_arbitrage, findOpportunity, execute_simulated_arbitrage,
      simulatedSteps, telegramEffects, fxDbSimCompleted, fxOppCompleted,
      fxSimSettings, fxReqUnconfirmed, fxEnvNoFetches, List.find?]

/-- The simulated variant never reads the stored status: its result is the
same whatever that field holds. -/
theorem execute_simulated_arbitrage_status_irrel (opp : ArbitrageOpportunity)
    (s : String) (amount : ℚ) :
    execute_simulated_arbitrage { opp with status := s } amount =
      execute_simulated_arbitrage { opp with status := "" } amount := rfl

/-- The full-transfer variant never reads the stored status either. -/
theorem execute_full_arbitrage_status_irrel (opp : ArbitrageOpportunity)
    (s : String) (amount : ℚ) (wallet : Option WalletRecord) (env : LiveEnv)
    (chat : Option String) :
    execute_full_arbitrage_with_transfers { opp with status := s } amount wallet env chat =
      execute_full_arbitrage_with_transfers { opp with status := "" } amount wallet env chat :=
  rfl

/-- C4 (amended): execute_arbitrage performs no status-based guard at all.
Its result never depends on the stored status of the opportunity, and every
found opportunity with positive prices that passes the confirmation gate is
unconditionally moved to executing — so a second call on a record already
executing, completed or failed runs the execution again instead of being
rejected. -/
theorem C4_no_status_guard :
    (∀ (opp : ArbitrageOpportunity) (s1 s2 : String) (settings : Option Settings)
        (wallet : Option WalletRecord) (request : ExecuteArbitrageRequest)
        (env : LiveEnv),
      execute_arbitrage ⟨[{ opp with status := s1 }], settings, wallet⟩ request env =
        execute_arbitrage ⟨[{ opp with status := s2 }], settings, wallet⟩ request env)
  ∧ (∀ (db : DB) (request : ExecuteArbitrageRequest) (env : LiveEnv)
        (opp : ArbitrageOpportunity),
      findOpportunity db request.opportunity_id = some opp →
      0 < opp.buy_price.getD 0 → 0 < opp.sell_price.getD 0 →
      ((db.settings.map Settings.is_live_mode).getD false && !request.confirmed) = false →
      Effect.statusUpdate request.opportunity_id "executing" ∈
        (execute_arbitrage db request env).2) := by
  constructor
  · intro opp s1 s2 settings wallet request env
    cases hc : opp.id == request.opportunity_id with
    | false => simp only [execute_arbitrage, findOpportunity, List.find?, hc]
    | true =>
      simp only [execute_arbitrage, findOpportunity, List.find?, hc,
        execute_simulated_arbitrage_status_irrel,
        execute_full_arbitrage_status_irrel]
  · intro db request env opp hfound hb hs hgate
    have hb2 : ¬ opp.buy_price.getD 0 ≤ 0 := not_le.mpr hb
    have hs2 : ¬ opp.sell_price.getD 0 ≤ 0 := not_le.mpr hs
    simp only [execute_arbitrage, hfound, if_neg hb2, if_neg hs2, hgate,
      Bool.false_eq_true, if_false]
    split
    · simp
    · simp

/-- C4 witness: the status-invariance applied to the completed opportunity
(with statuses completed versus detected), and the unconditional transition
to executing on the simulated-mode database. -/
theorem C4_witness :
    execute_arbitrage
        ⟨[{ fxOppCompleted with status := "completed" }], some fxSimSettings, none⟩
        fxReqUnconfirmed fxEnvNoFetches =
      execute_arbitrage
        ⟨[{ fxOppCompleted with status := "detected" }], some fxSimSettings, none⟩
        fxReqUnconfirmed fxEnvNoFetches
  ∧ Effect.statusUpdate "opp1" "executing" ∈
      (execute_arbitrage fxDbSimCompleted fxReqUnconfirmed fxEnvNoFetches).2 := by
  constructor
  · exact C4_no_status_guard.1 fxOppCompleted "completed" "detected"
      (some fxSimSettings) none fxReqUnconfirmed fxEnvNoFetches
  · exact C4_no_status_guard.2 fxDbSimCompleted fxReqUnconfirmed fxEnvNoFetches
      fxOppCompleted rfl (by norm_num [fxOppCompleted]) (by norm_num [fxOppCompleted])
      rfl

/-- C6: with every gateway fetch succeeding, the profitability assessment
computes the fees and the net profit by exactly the arithmetic of the claim
(tokenAmount = notional / buyPrice, grossRevenue = tokenAmount * sellPrice,
buyFee = notional * buyFeeRate, sellFee = grossRevenue * sellFeeRate,
netProfit = grossRevenue - sellFee - notional - buyFee - withdrawalFee -
gasFee), reports profitable exactly when that net profit is positive, and
when it is not, the orchestrator of the full-transfer variant stops at the
gate with the NotProfitable error: it journals and marks the opportunity
failed but performs no fund-moving gateway operation. -/
theorem C6_profitability_and_gate (opportunity : ArbitrageOpportunity)
    (usdt_amount : ℚ) (f : ProfitabilityFetches) (env : LiveEnv)
    (wallet : WalletRecord) (chat : Option String) :
    (check_arbitrage_profitability opportunity usdt_amount (some f)).buy_fee =
        usdt_amount * f.buy_maker.getD (1 / 1000)
  ∧ (check_arbitrage_profitability opportunity usdt_amount (some f)).sell_fee =
        (usdt_amount / opportunity.buy_price.getD 0 * opportunity.sell_price.getD 0) *
          f.sell_taker.getD (1 / 1000)
  ∧ (check_arbitrage_profitability opportunity usdt_amount (some f)).net_profit =
        usdt_amount / opportunity.buy_price.getD 0 * opportunity.sell_price.getD 0 -
          (check_arbitrage_profitability opportunity usdt_amount (some f)).sell_fee -
          usdt_amount -
          (check_arbitrage_profitability opportunity usdt_amount (some f)).buy_fee -
          (check_arbitrage_profitability opportunity usdt_amount (some f)).withdrawal_fee -
          (check_arbitrage_profitability opportunity usdt_amount (some f)).gas_fee
  ∧ ((check_arbitrage_profitability opportunity usdt_amount (some f)).is_profitable = true ↔
        0 < (check_arbitrage_profitability opportunity usdt_amount (some f)).net_profit)
  ∧ (env.exchanges_ok = true → env.token_in_db = true →
      env.profitability_fetches = some f →
      (check_arbitrage_profitability opportunity usdt_amount (some f)).is_profitable = false →
      execute_full_arbitrage_with_transfers opportunity usdt_amount (some wallet) env chat =
        (.failed (.notProfitable
            (check_arbitrage_profitability opportunity usdt_amount (some f)).net_profit
            (check_arbitrage_profitability opportunity usdt_amount (some f)).total_fees
            (check_arbitrage_profitability opportunity usdt_amount (some f)).min_spread_required),
          [Effect.statusUpdate opportunity.id "executing",
           Effect.journalAppend opportunity.id "profitability_check" "started",
           Effect.gatewayFetch "buy_exchange.fetch_trading_fees",
           Effect.gatewayFetch "sell_exchange.fetch_trading_fees",
           Effect.gatewayFetch "buy_exchange.fetch_currencies",
           Effect.journalAppend opportunity.id "profitability_check" "failed",
           Effect.statusUpdate opportunity.id "failed"]) ∧
      ∀ e ∈ (execute_full_arbitrage_with_transfers opportunity usdt_amount
          (some wallet) env chat).2, e.movesFunds = false) := by
  refine ⟨rfl, rfl, ?_, ?_, ?_⟩
  · simp only [check_arbitrage_profitability]
    ring
  · simp [check_arbitrage_profitability]
  · intro hx ht hf hnp
    have heq : execute_full_arbitrage_with_transfers opportunity usdt_amount
        (some wallet) env chat =
        (.failed (.notProfitable
            (check_arbitrage_profitability opportunity usdt_amount (some f)).net_profit
            (check_arbitrage_profitability opportunity usdt_amount (some f)).total_fees
            (check_arbitrage_profitability opportunity usdt_amount (some f)).min_spread_required),
          [Effect.statusUpdate opportunity.id "executing",
           Effect.journalAppend opportunity.id "profitability_check" "started",
           Effect.gatewayFetch "buy_exchange.fetch_trading_fees",
           Effect.gatewayFetch "sell_exchange.fetch_trading_fees",
           Effect.gatewayFetch "buy_exchange.fetch_currencies",
           Effect.journalAppend opportunity.id "profitability_check" "failed",
           Effect.statusUpdate opportunity.id "failed"]) := by
      simp [execute_full_arbitrage_with_transfers, hx, ht, hf,
        profitabilityFetchEffects, hnp]
    refine ⟨heq, ?_⟩
    intro e he
    rw [heq] at he
    simp only [List.mem_cons, List.not_mem_nil, or_false] at he
    rcases he with rfl | rfl | rfl | rfl | rfl | rfl | rfl <;> rfl

/-- C6 witness: a flat opportunity (buy price 1, sell price 1) with standard
fees is not profitable and the full-transfer orchestrator stops at its gate
with the NotProfitable error. -/
theorem C6_witness :
    (check_arbitrage_profitability fxOppFlat 100 (some fxFetches)).net_profit = -(17 / 10)
  ∧ (check_arbitrage_profitability fxOppFlat 100 (some fxFetches)).is_profitable = false
  ∧ (execute_full_arbitrage_with_transfers fxOppFlat 100 (some fxWallet)
        fxEnvFetches none).1 =
      .failed (.notProfitable (-(17 / 10)) (17 / 10) (17 / 10)) := by
  have hnp : (check_arbitrage_profitability fxOppFlat 100 (some fxFetches)).is_profitable
      = false := by
    norm_num [check_arbitrage_profitability, fxOppFlat, fxFetches]
  have h := (C6_profitability_and_gate fxOppFlat 100 fxFetches fxEnvFetches
    fxWallet none).2.2.2.2 rfl rfl rfl hnp
  refine ⟨?_, hnp, ?_⟩
  · norm_num [check_arbitrage_profitability, fxOppFlat, fxFetches]
  · rw [h.1]
    norm_num [check_arbitrage_profitability, fxOppFlat, fxFetches]

/-- C9 counterexample: the simulated result is rounded before it is returned
(round to 8 digits for the token amount, 4 for the money amounts), so for
buy price 3, sell price 4 and amount 100 the returned profit is the rounded
33.3333, not the exact arithmetic value 100/3 promised by the claim. -/
theorem C9_counterexample :
    (execute_simulated_arbitrage fxOppThirds 100).1 =
      .ok { status := "completed", opportunity_id := "opp1", usdt_invested := 100,
            tokens_bought := 3333333333 / 100000000, sell_value := 1333333 / 10000,
            profit := 333333 / 10000, profit_percent := 333333 / 10000,
            is_live := false, simulated := true }
  ∧ (333333 / 10000 : ℚ) ≠ 100 / 3 * 4 - 100 := by
  constructor
  · norm_num [execute_simulated_arbitrage, pyRound, fxOppThirds, round_eq]
  · norm_num

/-- C9 (amended): the simulated variant performs no gateway call of any kind,
journals exactly the fixed sequence of seven pseudo-steps, and returns the
arithmetic of the claim rounded the way the source rounds it: the token
amount to 8 decimal digits and the money amounts to 4 (which coincides with
the exact values whenever they are representable at that precision, as in the
test vector amount=100, buyPrice=1.00, sellPrice=1.05). -/
theorem C9_simulated_execution (opportunity : ArbitrageOpportunity)
    (usdt_amount : ℚ) (hb : 0 < opportunity.buy_price.getD 0)
    (hs : 0 < opportunity.sell_price.getD 0) :
    (execute_simulated_arbitrage opportunity usdt_amount).2 =
      simulatedSteps.map (fun s => Effect.journalAppend opportunity.id s.1 s.2)
  ∧ (execute_simulated_arbitrage opportunity usdt_amount).2.length = 7
  ∧ (∀ e ∈ (execute_simulated_arbitrage opportunity usdt_amount).2,
      e.movesFunds = false)
  ∧ (execute_simulated_arbitrage opportunity usdt_amount).1 =
      .ok { status := "completed", opportunity_id := opportunity.id,
            usdt_invested := usdt_amount,
            tokens_bought :=
              pyRound 8 (usdt_amount / opportunity.buy_price.getD 0),
            sell_value :=
              pyRound 4 (usdt_amount / opportunity.buy_price.getD 0 *
                opportunity.sell_price.getD 0),
            profit :=
              pyRound 4 (usdt_amount / opportunity.buy_price.getD 0 *
                opportunity.sell_price.getD 0 - usdt_amount),
            profit_percent :=
              pyRound 4 (if 0 < usdt_amount then
                (usdt_amount / opportunity.buy_price.getD 0 *
                  opportunity.sell_price.getD 0 - usdt_amount) / usdt_amount * 100
                else 0),
            is_live := false, simulated := true } := by
  have hb2 : ¬ opportunity.buy_price.getD 0 ≤ 0 := not_le.mpr hb
  have hs2 : ¬ opportunity.sell_price.getD 0 ≤ 0 := not_le.mpr hs
  refine ⟨by simp [execute_simulated_arbitrage, hb2, hs2], ?_, ?_, ?_⟩
  · simp [execute_simulated_arbitrage, hb2, hs2, simulatedSteps]
  · intro e he
    simp only [execute_simulated_arbitrage, if_neg hb2, if_neg hs2,
      simulatedSteps, List.map_cons, List.map_nil, List.mem_cons,
      List.not_mem_nil, or_false] at he
    rcases he with rfl | rfl | rfl | rfl | rfl | rfl | rfl <;> rfl
  · simp [execute_simulated_arbitrage, hb2, hs2]

/-- C9 witness: the deterministic test vector — amount 100, buy price 1.00,
sell price 1.05 — journals the seven pseudo-steps and returns tokens 100,
sell value 105, profit 5, profit percent 5. -/
theorem C9_witness :
    (execute_simulated_arbitrage fxOppSpec 100).2.length = 7
  ∧ (execute_simulated_arbitrage fxOppSpec 100).1 =
      .ok { status := "completed", opportunity_id := "opp1", usdt_invested := 100,
            tokens_bought := 100, sell_value := 105, profit := 5,
            profit_percent := 5, is_live := false, simulated := true } := by
  have h := C9_simulated_execution fxOppSpec 100
    (by norm_num [fxOppSpec]) (by norm_num [fxOppSpec])
  refine ⟨h.2.1, ?_⟩
  rw [h.2.2.2]
  norm_num [fxOppSpec, pyRound]

end CEXMasterP
